import Mathlib

/-!
Shallow embedding of the Crashlanding adventure game (src/first.py):
the character model, player progression, story-node effects and the
turn-based combat resolution, together with theorems settling the
frozen claims about the program.

Modelling conventions:
* Python `int` values are `ℤ`; Python `int(x)` applied to a possibly
  fractional value is `pytrunc` (truncation toward zero) on `ℚ`.
* The inventory dict is a total function `String → ℤ`; all reads in the
  source use `.get(key, 0)`, so the default-0 total function is exact.
* Randomness (`random.random()`, `random.randint`) is an oracle: draws
  are explicit arguments; `random.random()` yields `r : ℚ` with
  `0 ≤ r < 1`, `random.randint(a, b)` yields an integer in `[a, b]`
  (the range constraint appears as a hypothesis where a claim needs it).
* The Tkinter UI layer is outside the core; functions return the log
  lines / messages the source would hand to the UI.
-/

namespace Crashlanding

/-- Python `int(x)` on a rational value: truncation toward zero. -/
def pytrunc (q : ℚ) : ℤ := if q < 0 then ⌈q⌉ else ⌊q⌋

/-- `Character.__init__` fields (src/first.py lines 9-14). -/
structure Character where
  name : String
  max_health : ℤ
  health : ℤ
  attack : ℤ

/-- `Character(name, max_health, attack)`: health starts at `max_health`. -/
def mkCharacter (name : String) (max_health attack : ℤ) : Character :=
  { name := name, max_health := max_health, health := max_health, attack := attack }

/-- `Character.take_damage` (lines 16-22): clamp the amount to a
non-negative integer, subtract, floor health at 0, and return the
clamped amount. -/
def Character.take_damage (c : Character) (damage : ℚ) : ℤ × Character :=
  let d := max 0 (pytrunc damage)
  let h := c.health - d
  (d, { c with health := if h < 0 then 0 else h })

/-- `Character.heal` (lines 24-29): clamp the amount to a non-negative
integer, add capped at `max_health`, and return the HP actually
restored. -/
def Character.heal (c : Character) (amount : ℚ) : ℤ × Character :=
  let a := max 0 (pytrunc amount)
  let h := min c.max_health (c.health + a)
  (h - c.health, { c with health := h })

/-- `Character.is_alive` (lines 31-32). -/
def Character.is_alive (c : Character) : Bool := c.health > 0

theorem pytrunc_intCast (n : ℤ) : pytrunc (n : ℚ) = n := by
  unfold pytrunc
  split <;> simp

/-- C1: after `take_damage` or `heal` with any rational amount, a
character whose health satisfied `0 ≤ health ≤ max_health` still
satisfies it; both operations are total functions (no exception). -/
theorem health_invariant_preserved (c : Character) (q : ℚ)
    (h0 : 0 ≤ c.health) (h1 : c.health ≤ c.max_health) :
    (0 ≤ (c.take_damage q).2.health ∧ (c.take_damage q).2.health ≤ (c.take_damage q).2.max_health) ∧
    (0 ≤ (c.heal q).2.health ∧ (c.heal q).2.health ≤ (c.heal q).2.max_health) := by
  unfold Character.take_damage Character.heal
  have hd : 0 ≤ max 0 (pytrunc q) := le_max_left 0 _
  constructor
  · constructor
    · dsimp only
      split <;> omega
    · dsimp only
      split <;> omega
  · constructor
    · dsimp only
      omega
    · dsimp only
      omega

/-- Witness for C1 at a concrete character and a negative fractional
amount. -/
theorem health_invariant_preserved_witness :
    (0 ≤ (mkCharacter "c" 10 3).health ∧ (mkCharacter "c" 10 3).health ≤ (mkCharacter "c" 10 3).max_health) ∧
    ((0 ≤ ((mkCharacter "c" 10 3).take_damage (-5/2)).2.health ∧
      ((mkCharacter "c" 10 3).take_damage (-5/2)).2.health ≤ ((mkCharacter "c" 10 3).take_damage (-5/2)).2.max_health) ∧
     (0 ≤ ((mkCharacter "c" 10 3).heal (-5/2)).2.health ∧
      ((mkCharacter "c" 10 3).heal (-5/2)).2.health ≤ ((mkCharacter "c" 10 3).heal (-5/2)).2.max_health)) :=
  ⟨by constructor <;> decide,
   health_invariant_preserved (mkCharacter "c" 10 3) (-5/2) (by decide) (by decide)⟩

/-- C2 counterexample: `take_damage` returns the clamped input, not the
health actually removed.  A character at 5 health taking 10 damage gets
the return value 10, while health drops only from 5 to 0. -/
theorem take_damage_return_counterexample :
    (((mkCharacter "c" 10 3).take_damage 5).2.take_damage 10).1 = 10 ∧
    ((mkCharacter "c" 10 3).take_damage 5).2.health -
      (((mkCharacter "c" 10 3).take_damage 5).2.take_damage 10).2.health = 5 ∧
    (10 : ℤ) ≠ 5 := by
  refine ⟨?_, ?_, by decide⟩ <;> decide

/-- C2 amended: `take_damage` returns the input clamped to a
non-negative integer, and this equals health-before minus health-after
exactly when the clamped amount does not exceed the current health. -/
theorem take_damage_return_amended (c : Character) (q : ℚ)
    (h : max 0 (pytrunc q) ≤ c.health) :
    (c.take_damage q).1 = max 0 (pytrunc q) ∧
    (c.take_damage q).1 = c.health - (c.take_damage q).2.health := by
  unfold Character.take_damage
  constructor
  · rfl
  · dsimp only
    split <;> omega

/-- Witness for the amended C2 at a concrete character and amount. -/
theorem take_damage_return_amended_witness :
    max 0 (pytrunc 4) ≤ (mkCharacter "c" 10 3).health ∧
    (((mkCharacter "c" 10 3).take_damage 4).1 = max 0 (pytrunc 4) ∧
     ((mkCharacter "c" 10 3).take_damage 4).1 =
       (mkCharacter "c" 10 3).health - ((mkCharacter "c" 10 3).take_damage 4).2.health) :=
  ⟨by decide, take_damage_return_amended (mkCharacter "c" 10 3) 4 (by decide)⟩

/-- Write a value into the inventory dict. -/
def dictSet (inv : String → ℤ) (key : String) (v : ℤ) : String → ℤ :=
  fun n => if n = key then v else inv n

/-- `Player.__init__` fields (lines 35-41): the `Character` base plus
level, experience, inventory and skill points. -/
structure Player extends Character where
  level : ℤ
  exp : ℤ
  inventory : String → ℤ
  skill_points : ℤ

/-- `Player(name)` (lines 36-41): base stats `max_health=100`,
`attack=20`, level 1, no experience, 3 Medkits, no skill points. -/
def mkPlayer (name : String) : Player :=
  { toCharacter := mkCharacter name 100 20
    level := 1
    exp := 0
    inventory := fun n => if n = "Medkit" then 3 else 0
    skill_points := 0 }

/-- `Player.take_damage`: inherited from `Character`. -/
def Player.take_damage (p : Player) (damage : ℚ) : ℤ × Player :=
  let (d, c) := p.toCharacter.take_damage damage
  (d, { p with toCharacter := c })

/-- `Player.heal`: inherited from `Character`. -/
def Player.heal (p : Player) (amount : ℚ) : ℤ × Player :=
  let (a, c) := p.toCharacter.heal amount
  (a, { p with toCharacter := c })

/-- `Player.is_alive`: inherited from `Character`. -/
def Player.is_alive (p : Player) : Bool := p.toCharacter.is_alive

/-- `Player.exp_to_next_level` (lines 43-45). -/
def Player.exp_to_next_level (p : Player) : ℤ := 20 + (p.level - 1) * 10

/-- One iteration of the level-up `while` body (lines 54-63): subtract
the current threshold, raise level, skill points, max health (with a
full heal) and attack. -/
def Player.level_up_step (p : Player) : Player :=
  { p with
    exp := p.exp - p.exp_to_next_level
    level := p.level + 1
    skill_points := p.skill_points + 1
    max_health := p.max_health + 10
    health := p.max_health + 10
    attack := p.attack + 2 }

/-- The line logged by one level-up iteration (lines 60-63), built from
the values after the mutations. -/
def levelUpLine (p : Player) : String :=
  p.name ++ " leveled up to " ++ toString p.level ++ "! " ++
    "Max Health +10, Attack +2. Skill points available: " ++ toString p.skill_points ++ "."

/-- The `while self.exp >= self.exp_to_next_level()` loop of `add_exp`
(lines 53-63), given enough fuel.  Each executed iteration lowers `exp`
by the threshold, which is at least 20 whenever `level ≥ 1`, so fuel
`exp.toNat` always suffices in reachable states. -/
def levelLoop : ℕ → Player → List String → Player × List String
  | 0, p, logs => (p, logs)
  | fuel + 1, p, logs =>
    if p.exp_to_next_level ≤ p.exp then
      levelLoop fuel p.level_up_step (logs ++ [levelUpLine p.level_up_step])
    else
      (p, logs)

/-- `Player.add_exp` (lines 47-64): add the XP, log the gain, then run
the level-up loop; returns the mutated player and the log lines. -/
def Player.add_exp (p : Player) (amount : ℤ) : Player × List String :=
  let p1 : Player := { p with exp := p.exp + amount }
  levelLoop p1.exp.toNat p1 [p.name ++ " gained " ++ toString amount ++ " XP."]

/-- `Player.use_medkit` (lines 66-72): if no Medkit is left return the
rummage message unchanged, else consume one Medkit and heal 30. -/
def Player.use_medkit (p : Player) : String × Player :=
  if p.inventory "Medkit" ≤ 0 then
    ("You rummage through your pack... no medkits left!", p)
  else
    let p1 : Player := { p with inventory := dictSet p.inventory "Medkit" (p.inventory "Medkit" - 1) }
    let (healed, p2) := p1.heal 30
    ("You use a Medkit and recover " ++ toString healed ++ " health.", p2)

/-- `Enemy.__init__` (lines 75-78): a `Character` plus an XP reward. -/
structure Enemy extends Character where
  exp_reward : ℤ

/-- `Enemy(name, max_health, attack, exp_reward)`. -/
def mkEnemy (name : String) (max_health attack exp_reward : ℤ) : Enemy :=
  { toCharacter := mkCharacter name max_health attack, exp_reward := exp_reward }

/-- `Enemy.take_damage`: inherited from `Character`. -/
def Enemy.take_damage (e : Enemy) (damage : ℚ) : ℤ × Enemy :=
  let (d, c) := e.toCharacter.take_damage damage
  (d, { e with toCharacter := c })

/-- `Enemy.is_alive`: inherited from `Character`. -/
def Enemy.is_alive (e : Enemy) : Bool := e.toCharacter.is_alive

theorem levelLoop_succ_of_le (fuel : ℕ) (p : Player) (logs : List String)
    (h : p.exp_to_next_level ≤ p.exp) :
    levelLoop (fuel + 1) p logs =
      levelLoop fuel p.level_up_step (logs ++ [levelUpLine p.level_up_step]) := by
  simp [levelLoop, h]

theorem levelLoop_stop (fuel : ℕ) (p : Player) (logs : List String)
    (h : p.exp < p.exp_to_next_level) :
    levelLoop fuel p logs = (p, logs) := by
  cases fuel with
  | zero => rfl
  | succ n => simp [levelLoop, not_le.mpr h]

/-- C3 counterexample: the fresh player is at level 1, the sum of the
level-1 and level-2 thresholds is 20 + 30 = 50, and awarding 100 XP
(which is ≥ 50) triggers three level-ups, not exactly two: the player
ends at level 4 and the log has an XP line plus three level lines. -/
theorem add_exp_exactly_two_counterexample :
    (20 + ((mkPlayer "Astronaut").level - 1) * 10) +
      (20 + (mkPlayer "Astronaut").level * 10) ≤ 100 ∧
    ((mkPlayer "Astronaut").add_exp 100).1.level = 4 ∧
    ((mkPlayer "Astronaut").add_exp 100).2.length = 4 ∧
    (4 : ℤ) ≠ 1 + 2 := by
  refine ⟨by decide, ?_, ?_, by decide⟩ <;> decide

/-- C3 amended: awarding `amount` XP to a player with 0 accumulated
experience at level `L ≥ 1`, where `amount` is at least the sum of the
level-`L` and level-`L+1` thresholds but less than the sum of three
consecutive thresholds, triggers exactly two level-ups applied in
order: experience ends at `amount` minus the two thresholds, level and
skill points rise by 2, max health by 20 with a full heal, attack by 4,
and the log is the XP-gain line followed by the two level lines in
chronological order. -/
theorem add_exp_double_level (p : Player) (amount : ℤ)
    (hL : 1 ≤ p.level) (h0 : p.exp = 0)
    (hlo : (20 + (p.level - 1) * 10) + (20 + p.level * 10) ≤ amount)
    (hhi : amount < (20 + (p.level - 1) * 10) + (20 + p.level * 10) + (20 + (p.level + 1) * 10)) :
    (p.add_exp amount).1.level = p.level + 2 ∧
    (p.add_exp amount).1.exp = amount - (20 + (p.level - 1) * 10) - (20 + p.level * 10) ∧
    (p.add_exp amount).1.max_health = p.max_health + 20 ∧
    (p.add_exp amount).1.health = p.max_health + 20 ∧
    (p.add_exp amount).1.attack = p.attack + 4 ∧
    (p.add_exp amount).1.skill_points = p.skill_points + 2 ∧
    (p.add_exp amount).2 =
      [p.name ++ " gained " ++ toString amount ++ " XP.",
       p.name ++ " leveled up to " ++ toString (p.level + 1) ++ "! " ++
         "Max Health +10, Attack +2. Skill points available: " ++ toString (p.skill_points + 1) ++ ".",
       p.name ++ " leveled up to " ++ toString (p.level + 2) ++ "! " ++
         "Max Health +10, Attack +2. Skill points available: " ++ toString (p.skill_points + 2) ++ "."] := by
  have h50 : 50 ≤ amount := by omega
  have hg1 : Player.exp_to_next_level { p with exp := p.exp + amount } ≤
      ({ p with exp := p.exp + amount } : Player).exp := by
    show 20 + (p.level - 1) * 10 ≤ p.exp + amount
    omega
  have hg2 : Player.exp_to_next_level (Player.level_up_step { p with exp := p.exp + amount }) ≤
      (Player.level_up_step { p with exp := p.exp + amount }).exp := by
    show 20 + (p.level + 1 - 1) * 10 ≤ p.exp + amount - (20 + (p.level - 1) * 10)
    omega
  have hg3 : (Player.level_up_step (Player.level_up_step { p with exp := p.exp + amount })).exp <
      Player.exp_to_next_level (Player.level_up_step (Player.level_up_step { p with exp := p.exp + amount })) := by
    show p.exp + amount - (20 + (p.level - 1) * 10) - (20 + (p.level + 1 - 1) * 10) <
      20 + (p.level + 1 + 1 - 1) * 10
    omega
  have key : p.add_exp amount =
      (Player.level_up_step (Player.level_up_step { p with exp := p.exp + amount }),
       [p.name ++ " gained " ++ toString amount ++ " XP."] ++
         [levelUpLine (Player.level_up_step { p with exp := p.exp + amount })] ++
         [levelUpLine (Player.level_up_step (Player.level_up_step { p with exp := p.exp + amount }))]) := by
    simp only [Player.add_exp]
    rw [show (p.exp + amount).toNat = ((amount.toNat - 2) + 1) + 1 from by omega]
    rw [levelLoop_succ_of_le _ _ _ hg1, levelLoop_succ_of_le _ _ _ hg2, levelLoop_stop _ _ _ hg3]
  rw [key]
  refine ⟨?_, ?_, ?_, ?_, ?_, ?_, ?_⟩
  · show p.level + 1 + 1 = p.level + 2
    omega
  · show p.exp + amount - (20 + (p.level - 1) * 10) - (20 + (p.level + 1 - 1) * 10) =
      amount - (20 + (p.level - 1) * 10) - (20 + p.level * 10)
    omega
  · show p.max_health + 10 + 10 = p.max_health + 20
    omega
  · show p.max_health + 10 + 10 = p.max_health + 20
    omega
  · show p.attack + 2 + 2 = p.attack + 4
    omega
  · show p.skill_points + 1 + 1 = p.skill_points + 2
    omega
  · have e1 : p.level + 1 + 1 = p.level + 2 := by omega
    have e2 : p.skill_points + 1 + 1 = p.skill_points + 2 := by omega
    simp [levelUpLine, Player.level_up_step, e1, e2]

/-- Witness for the amended C3: the fresh level-1 player awarded 50 XP
(the exact sum of the level-1 and level-2 thresholds) levels up exactly
twice. -/
theorem add_exp_double_level_witness :
    (1 ≤ (mkPlayer "Astronaut").level ∧ (mkPlayer "Astronaut").exp = 0 ∧
     (20 + ((mkPlayer "Astronaut").level - 1) * 10) + (20 + (mkPlayer "Astronaut").level * 10) ≤ 50 ∧
     (50 : ℤ) < (20 + ((mkPlayer "Astronaut").level - 1) * 10) + (20 + (mkPlayer "Astronaut").level * 10) +
       (20 + ((mkPlayer "Astronaut").level + 1) * 10)) ∧
    (((mkPlayer "Astronaut").add_exp 50).1.level = (mkPlayer "Astronaut").level + 2 ∧
     ((mkPlayer "Astronaut").add_exp 50).1.exp =
       50 - (20 + ((mkPlayer "Astronaut").level - 1) * 10) - (20 + (mkPlayer "Astronaut").level * 10) ∧
     ((mkPlayer "Astronaut").add_exp 50).1.max_health = (mkPlayer "Astronaut").max_health + 20 ∧
     ((mkPlayer "Astronaut").add_exp 50).1.health = (mkPlayer "Astronaut").max_health + 20 ∧
     ((mkPlayer "Astronaut").add_exp 50).1.attack = (mkPlayer "Astronaut").attack + 4 ∧
     ((mkPlayer "Astronaut").add_exp 50).1.skill_points = (mkPlayer "Astronaut").skill_points + 2 ∧
     ((mkPlayer "Astronaut").add_exp 50).2 =
       [(mkPlayer "Astronaut").name ++ " gained " ++ toString (50 : ℤ) ++ " XP.",
        (mkPlayer "Astronaut").name ++ " leveled up to " ++ toString ((mkPlayer "Astronaut").level + 1) ++ "! " ++
          "Max Health +10, Attack +2. Skill points available: " ++
          toString ((mkPlayer "Astronaut").skill_points + 1) ++ ".",
        (mkPlayer "Astronaut").name ++ " leveled up to " ++ toString ((mkPlayer "Astronaut").level + 2) ++ "! " ++
          "Max Health +10, Attack +2. Skill points available: " ++
          toString ((mkPlayer "Astronaut").skill_points + 2) ++ "."]) :=
  ⟨⟨by decide, rfl, by decide, by decide⟩,
   add_exp_double_level (mkPlayer "Astronaut") 50 (by decide) rfl (by decide) (by decide)⟩

/-- C7: with no Medkit in the inventory, `use_medkit` returns the
rummage message and leaves the player entirely unchanged; the branch is
a plain return, so no exception can arise. -/
theorem use_medkit_none_left (p : Player) (h : p.inventory "Medkit" = 0) :
    p.use_medkit = ("You rummage through your pack... no medkits left!", p) := by
  unfold Player.use_medkit
  rw [if_pos (by omega)]

/-- Witness for C7 at a concrete player holding zero Medkits. -/
theorem use_medkit_none_left_witness :
    ({ mkPlayer "Astronaut" with inventory := fun _ => 0 } : Player).inventory "Medkit" = 0 ∧
    ({ mkPlayer "Astronaut" with inventory := fun _ => 0 } : Player).use_medkit =
      ("You rummage through your pack... no medkits left!",
       { mkPlayer "Astronaut" with inventory := fun _ => 0 }) :=
  ⟨rfl, use_medkit_none_left { mkPlayer "Astronaut" with inventory := fun _ => 0 } rfl⟩

/-- C9 counterexample: the game-start player (`Player("Astronaut")`,
src/first.py line 260) holds 3 Medkits, not exactly one consumable. -/
theorem starting_inventory_counterexample :
    (mkPlayer "Astronaut").inventory "Medkit" = 3 ∧ (3 : ℤ) ≠ 1 :=
  ⟨rfl, by decide⟩

/-- C9 amended: the game-start player has the fixed starting stats
(max health 100, full health, attack 20, level 1, experience 0, skill
points 0) and a single kind of starting consumable, the Medkit, stocked
with count 3. -/
theorem starting_player_stats :
    (mkPlayer "Astronaut").max_health = 100 ∧
    (mkPlayer "Astronaut").health = 100 ∧
    (mkPlayer "Astronaut").attack = 20 ∧
    (mkPlayer "Astronaut").level = 1 ∧
    (mkPlayer "Astronaut").exp = 0 ∧
    (mkPlayer "Astronaut").skill_points = 0 ∧
    (mkPlayer "Astronaut").inventory = (fun n => if n = "Medkit" then 3 else 0) :=
  ⟨rfl, rfl, rfl, rfl, rfl, rfl, rfl⟩

/-- C10: with at least one Medkit, `use_medkit` always removes exactly
one Medkit — also when the player is already at max health — and the
message reports the HP actually restored, `min 30 (max_health - health)`;
health rises to `min max_health (health + 30)`. -/
theorem use_medkit_consumes_and_reports (p : Player) (h : 0 < p.inventory "Medkit") :
    p.use_medkit =
      ("You use a Medkit and recover " ++ toString (min 30 (p.max_health - p.health)) ++ " health.",
       { p with inventory := dictSet p.inventory "Medkit" (p.inventory "Medkit" - 1),
                health := min p.max_health (p.health + 30) }) := by
  have h30 : max 0 (pytrunc 30) = (30 : ℤ) := by unfold pytrunc; norm_num
  have hmin : min p.max_health (p.health + 30) - p.health = min 30 (p.max_health - p.health) := by
    omega
  simp only [Player.use_medkit, Player.heal, Character.heal]
  rw [if_neg (show ¬ p.inventory "Medkit" ≤ 0 from by omega)]
  simp only [h30, hmin]

/-- Witness for C10 at the fresh player: already at max health, so the
Medkit is consumed while restoring 0 HP. -/
theorem use_medkit_consumes_and_reports_witness :
    0 < (mkPlayer "Astronaut").inventory "Medkit" ∧
    (mkPlayer "Astronaut").use_medkit =
      ("You use a Medkit and recover " ++
         toString (min 30 ((mkPlayer "Astronaut").max_health - (mkPlayer "Astronaut").health)) ++ " health.",
       { mkPlayer "Astronaut" with
           inventory := dictSet (mkPlayer "Astronaut").inventory "Medkit"
             ((mkPlayer "Astronaut").inventory "Medkit" - 1),
           health := min (mkPlayer "Astronaut").max_health ((mkPlayer "Astronaut").health + 30) }) :=
  ⟨by decide, use_medkit_consumes_and_reports (mkPlayer "Astronaut") (by decide)⟩

/-- The one-time-effect flag dict built in `Game.__init__`
(lines 272-276), one Boolean per triggerable node. -/
structure Flags where
  wreckage_looted : Bool
  rest1_healed : Bool
  camp_good_healed : Bool

/-- The session state owned by `Game` (lines 259-276), without the
immutable story graph and the UI handle. -/
structure GameState where
  player : Player
  current_enemy : Option Enemy
  victory_target : Option String
  current_node_id : Option String
  battle_log : List String
  flags : Flags

/-- The session state right after `Game.__init__`. -/
def initGame : GameState :=
  { player := mkPlayer "Astronaut"
    current_enemy := none
    victory_target := none
    current_node_id := none
    battle_log := []
    flags := { wreckage_looted := false, rest1_healed := false, camp_good_healed := false } }

/-- The node ids inserted into `self.story_nodes` by `Game._build_story`
(lines 282-706), in insertion order. -/
def storyNodeIds : List String :=
  ["intro", "wreckage", "forest_edge", "ridge", "rest1", "post_frog", "food_found",
   "deep_forest", "post_plant", "forest_depths", "deep_valley", "probe_salvaged",
   "beacon_online", "camp_good"]

/-- Python exceptions that the modelled fragment can raise.  The code
raises only `keyError` (the built-in lookup failure of
`self.story_nodes[node_id]`); `unknownNodeError` is modelled from the
spec, which names an `UnknownNodeError` the source never defines, and
exists solely so the spec's words can be compared with the code. -/
inductive PyError where
  | keyError (key : String)
  | unknownNodeError (msg : String)

/-- True exactly on the spec-modelled `UnknownNodeError` outcome. -/
def isUnknownNodeError : Except PyError (GameState × List String) → Bool
  | .error (.unknownNodeError _) => true
  | _ => false

/-- `Game.go_to_node` (lines 709-742): look the node up (the dict
subscript raises `KeyError` when the id is absent), set it as current,
and apply the node's one-time passive effect gated by its session flag.
Returns the new state together with the `extra_logs` lines the source
appends to the node description for the UI. -/
def go_to_node (node_id : String) (st : GameState) : Except PyError (GameState × List String) :=
  if node_id ∈ storyNodeIds then
    let st1 : GameState := { st with current_node_id := some node_id }
    if node_id = "wreckage" then
      if st1.flags.wreckage_looted = false then
        .ok ({ st1 with
                player := { st1.player with
                  inventory := dictSet st1.player.inventory "Medkit" (st1.player.inventory "Medkit" + 1) }
                flags := { st1.flags with wreckage_looted := true } },
             ["You gain +1 Medkit from the wreckage."])
      else
        .ok (st1, ["You\x27ve already salvaged everything useful here."])
    else if node_id = "rest1" then
      if st1.flags.rest1_healed = false then
        let (healed, p) := st1.player.heal 15
        .ok ({ st1 with player := p, flags := { st1.flags with rest1_healed := true } },
             ["You feel a bit better. (+" ++ toString healed ++ " HP)"])
      else
        .ok (st1, ["You\x27ve already rested here; your body aches to keep moving."])
    else if node_id = "camp_good" then
      if st1.flags.camp_good_healed = false then
        let (healed, p) := st1.player.heal 20
        .ok ({ st1 with player := p, flags := { st1.flags with camp_good_healed := true } },
             ["Resting at camp restores your strength. (+" ++ toString healed ++ " HP)"])
      else
        .ok (st1, ["The camp feels familiar now, but offers no new comfort."])
    else
      .ok (st1, [])
  else
    .error (.keyError node_id)

/-- The player-turn branch of `Game.player_action` (lines 792-810):
the `if/elif` chain over the action string.  `r` is the
`random.random()` draw of the heavy branch; `d` is the `random.randint`
damage draw of the quick/heavy branches.  Returns the mutated player and
enemy along with the log lines of the turn. -/
def playerTurn (action : String) (p : Player) (e : Enemy) (r : ℚ) (d : ℤ) :
    Player × Enemy × List String :=
  if action = "quick" then
    let (dmg, e1) := e.take_damage (d : ℚ)
    (p, e1, ["You strike quickly for " ++ toString dmg ++ " damage!"])
  else if action = "heavy" then
    if r < 0.6 then
      let (dmg, e1) := e.take_damage (d : ℚ)
      (p, e1, ["You commit to a heavy blow for " ++ toString dmg ++ " damage!"])
    else
      (p, e, ["You swing hard—but the enemy dodges!"])
  else if action = "medkit" then
    let (msg, p1) := p.use_medkit
    (p1, e, [msg])
  else
    (p, e, ["You hesitate and lose your chance to act."])

/-- `Game.enemy_turn` (lines 831-849): guard, enemy damage roll `de`
applied to the player, and the log bookkeeping.  `self.battle_log` is
the same list object as the local `logs`, so the appended lines land in
`battle_log` on both the defeat path and the continue path. -/
def enemy_turn (de : ℤ) (g : GameState) : GameState :=
  match g.current_enemy with
  | none => g
  | some enemy =>
    if g.player.is_alive then
      let (dmg, p1) := g.player.take_damage (de : ℚ)
      let logs := g.battle_log ++
        ["The " ++ enemy.name ++ " attacks and deals " ++ toString dmg ++ " damage!"]
      if p1.is_alive then
        { g with player := p1, battle_log := logs ++ ["What will you do next?"] }
      else
        { g with player := p1, battle_log := logs ++ ["You collapse. The world fades to black."] }
    else g

/-- `Game.player_action` (lines 785-829): guard, player turn, victory
check (XP grant and enemy discard), otherwise store the turn log and run
the enemy turn.  On the victory path the source hands the log lines
straight to the UI and leaves `self.battle_log` untouched. -/
def player_action (action : String) (r : ℚ) (d : ℤ) (de : ℤ) (g : GameState) : GameState :=
  match g.current_enemy with
  | none => g
  | some enemy =>
    if g.player.is_alive then
      let (p1, e1, logs) := playerTurn action g.player enemy r d
      if e1.is_alive then
        enemy_turn de { g with player := p1, current_enemy := some e1, battle_log := logs }
      else
        let (p2, _lines) := p1.add_exp e1.exp_reward
        { g with player := p2, current_enemy := none }
    else g

/-- C6: when no enemy is present or the player is not alive, both
combat entry points (`player_action` with any action kind, and
`enemy_turn`) leave the session state — player, enemy, flags, node,
log — untouched, for every outcome of the random draws. -/
theorem combat_noop_when_dead_or_no_enemy (g : GameState) (action : String)
    (r : ℚ) (d de : ℤ)
    (h : g.current_enemy = none ∨ g.player.is_alive = false) :
    player_action action r d de g = g ∧ enemy_turn de g = g := by
  rcases h with h | h
  · refine ⟨?_, ?_⟩
    · unfold player_action; rw [h]
    · unfold enemy_turn; rw [h]
  · cases hc : g.current_enemy with
    | none =>
      refine ⟨?_, ?_⟩
      · unfold player_action; rw [hc]
      · unfold enemy_turn; rw [hc]
    | some e =>
      refine ⟨?_, ?_⟩
      · unfold player_action; rw [hc]; simp [h]
      · unfold enemy_turn; rw [hc]; simp [h]

/-- Witness for C6 at the initial session (no enemy yet). -/
theorem combat_noop_witness :
    (initGame.current_enemy = none ∨ initGame.player.is_alive = false) ∧
    (player_action "quick" 0 0 0 initGame = initGame ∧ enemy_turn 0 initGame = initGame) :=
  ⟨Or.inl rfl, combat_noop_when_dead_or_no_enemy initGame "quick" 0 0 0 (Or.inl rfl)⟩

/-- C8 counterexample: entering an id absent from the story graph fails
with the built-in `KeyError` of the dict subscript; the program defines
no `UnknownNodeError`, so the failure is not of that kind. -/
theorem unknown_node_error_counterexample :
    go_to_node "nonexistent" initGame = .error (.keyError "nonexistent") ∧
    isUnknownNodeError (go_to_node "nonexistent" initGame) = false := by
  constructor <;> rfl

/-- C8 amended: for every node id absent from the story graph,
`go_to_node` fails with a `KeyError` naming the id — a fatal,
descriptive error rather than a silent recovery. -/
theorem unknown_node_keyerror (node_id : String) (st : GameState)
    (h : node_id ∉ storyNodeIds) :
    go_to_node node_id st = .error (.keyError node_id) := by
  unfold go_to_node
  rw [if_neg h]

/-- Witness for the amended C8 at a concrete absent id. -/
theorem unknown_node_keyerror_witness :
    "beacon_offline" ∉ storyNodeIds ∧
    go_to_node "beacon_offline" initGame = .error (.keyError "beacon_offline") :=
  ⟨by decide, unknown_node_keyerror "beacon_offline" initGame (by decide)⟩

/-- C4: for every outcome of the random source, the heavy action either
hits — exactly when the `random.random()` draw `r` is below 0.6 — and
applies to the enemy a `randint` draw `d` from the inclusive range
`[int(1.5*attack) - 5, int(1.5*attack) + 5]`, whose midpoint truncates
`1.5 * attack` to an integer before the range is built, or (when
`0.6 ≤ r`, probability 0.4 under the uniform draw) deals no damage to
the enemy and logs the dodge line. -/
theorem heavy_attack_hit_or_dodge (p : Player) (e : Enemy) (r : ℚ) (d : ℤ)
    (_hr0 : 0 ≤ r) (_hr1 : r < 1)
    (hd1 : pytrunc ((p.attack : ℚ) * 1.5) - 5 ≤ d)
    (hd2 : d ≤ pytrunc ((p.attack : ℚ) * 1.5) + 5) :
    (r < 0.6 ∧
      playerTurn "heavy" p e r d =
        (p, (e.take_damage (d : ℚ)).2,
         ["You commit to a heavy blow for " ++ toString (e.take_damage (d : ℚ)).1 ++ " damage!"]) ∧
      pytrunc ((p.attack : ℚ) * 1.5) - 5 ≤ d ∧ d ≤ pytrunc ((p.attack : ℚ) * 1.5) + 5) ∨
    (0.6 ≤ r ∧
      playerTurn "heavy" p e r d = (p, e, ["You swing hard—but the enemy dodges!"])) := by
  unfold playerTurn
  rw [if_neg (by decide : ¬ ("heavy" : String) = "quick"),
      if_pos (rfl : ("heavy" : String) = "heavy")]
  by_cases hr : r < 0.6
  · left
    rw [if_pos hr]
    exact ⟨hr, rfl, hd1, hd2⟩
  · right
    rw [if_neg hr]
    exact ⟨le_of_not_lt hr, rfl⟩

/-- Witness for C4: the starting player (attack 20, so the range is
`[25, 35]` around `int(30.0) = 30`) against the first enemy, with a
hitting draw. -/
theorem heavy_attack_hit_or_dodge_witness :
    (0 ≤ (1/2 : ℚ) ∧ (1/2 : ℚ) < 1 ∧
     pytrunc (((mkPlayer "Astronaut").attack : ℚ) * 1.5) - 5 ≤ 30 ∧
     (30 : ℤ) ≤ pytrunc (((mkPlayer "Astronaut").attack : ℚ) * 1.5) + 5) ∧
    (((1/2 : ℚ) < 0.6 ∧
      playerTurn "heavy" (mkPlayer "Astronaut") (mkEnemy "Tusked Frog" 50 12 25) (1/2) 30 =
        (mkPlayer "Astronaut", ((mkEnemy "Tusked Frog" 50 12 25).take_damage ((30 : ℤ) : ℚ)).2,
         ["You commit to a heavy blow for " ++
            toString ((mkEnemy "Tusked Frog" 50 12 25).take_damage ((30 : ℤ) : ℚ)).1 ++ " damage!"]) ∧
      pytrunc (((mkPlayer "Astronaut").attack : ℚ) * 1.5) - 5 ≤ 30 ∧
      (30 : ℤ) ≤ pytrunc (((mkPlayer "Astronaut").attack : ℚ) * 1.5) + 5) ∨
     ((0.6 : ℚ) ≤ 1/2 ∧
      playerTurn "heavy" (mkPlayer "Astronaut") (mkEnemy "Tusked Frog" 50 12 25) (1/2) 30 =
        (mkPlayer "Astronaut", mkEnemy "Tusked Frog" 50 12 25,
         ["You swing hard—but the enemy dodges!"]))) :=
  ⟨⟨by norm_num, by norm_num, by norm_num [pytrunc, mkPlayer, mkCharacter],
     by norm_num [pytrunc, mkPlayer, mkCharacter]⟩,
   heavy_attack_hit_or_dodge (mkPlayer "Astronaut") (mkEnemy "Tusked Frog" 50 12 25) (1/2) 30
     (by norm_num) (by norm_num)
     (by norm_num [pytrunc, mkPlayer, mkCharacter])
     (by norm_num [pytrunc, mkPlayer, mkCharacter])⟩

theorem rest1_repeat_line_ne (healed : ℤ) :
    "You\x27ve already rested here; your body aches to keep moving." ≠
      "You feel a bit better. (+" ++ toString healed ++ " HP)" := by
  intro hEq
  have h3 := congrArg (fun s => s.data[3]?) hEq
  simp only [String.data_append] at h3
  rw [List.getElem?_append_left (by simp [List.length_append]),
      List.getElem?_append_left (by decide)] at h3
  revert h3
  decide

theorem camp_repeat_line_ne (healed : ℤ) :
    "The camp feels familiar now, but offers no new comfort." ≠
      "Resting at camp restores your strength. (+" ++ toString healed ++ " HP)" := by
  intro hEq
  have h0 := congrArg (fun s => s.data[0]?) hEq
  simp only [String.data_append] at h0
  rw [List.getElem?_append_left (by simp [List.length_append]),
      List.getElem?_append_left (by decide)] at h0
  revert h0
  decide

/-- C5: each node with a one-time passive effect (wreckage Medkit loot,
rest1 heal 15, camp_good heal 20) applies its effect exactly on the
first visit, flipping the session flag; once the flag is set, every
later visit leaves the player and the flags unchanged and logs a line
different from any possible first-visit effect line. -/
theorem one_time_node_effects (st : GameState) :
    (st.flags.wreckage_looted = false →
      go_to_node "wreckage" st =
        .ok ({ st with
               current_node_id := some "wreckage",
               player := { st.player with
                           inventory := dictSet st.player.inventory "Medkit"
                             (st.player.inventory "Medkit" + 1) },
               flags := { st.flags with wreckage_looted := true } },
             ["You gain +1 Medkit from the wreckage."])) ∧
    (st.flags.wreckage_looted = true →
      go_to_node "wreckage" st =
        .ok ({ st with current_node_id := some "wreckage" },
             ["You\x27ve already salvaged everything useful here."]) ∧
      "You\x27ve already salvaged everything useful here." ≠
        "You gain +1 Medkit from the wreckage.") ∧
    (st.flags.rest1_healed = false →
      go_to_node "rest1" st =
        .ok ({ st with
               current_node_id := some "rest1",
               player := (st.player.heal 15).2,
               flags := { st.flags with rest1_healed := true } },
             ["You feel a bit better. (+" ++ toString (st.player.heal 15).1 ++ " HP)"])) ∧
    (st.flags.rest1_healed = true →
      go_to_node "rest1" st =
        .ok ({ st with current_node_id := some "rest1" },
             ["You\x27ve already rested here; your body aches to keep moving."]) ∧
      ∀ healed : ℤ, "You\x27ve already rested here; your body aches to keep moving." ≠
        "You feel a bit better. (+" ++ toString healed ++ " HP)") ∧
    (st.flags.camp_good_healed = false →
      go_to_node "camp_good" st =
        .ok ({ st with
               current_node_id := some "camp_good",
               player := (st.player.heal 20).2,
               flags := { st.flags with camp_good_healed := true } },
             ["Resting at camp restores your strength. (+" ++
                toString (st.player.heal 20).1 ++ " HP)"])) ∧
    (st.flags.camp_good_healed = true →
      go_to_node "camp_good" st =
        .ok ({ st with current_node_id := some "camp_good" },
             ["The camp feels familiar now, but offers no new comfort."]) ∧
      ∀ healed : ℤ, "The camp feels familiar now, but offers no new comfort." ≠
        "Resting at camp restores your strength. (+" ++ toString healed ++ " HP)") := by
  refine ⟨fun h => ?_, fun h => ⟨?_, by decide⟩, fun h => ?_, fun h => ⟨?_, rest1_repeat_line_ne⟩,
    fun h => ?_, fun h => ⟨?_, camp_repeat_line_ne⟩⟩ <;>
    simp [go_to_node, storyNodeIds, h]

/-- Witness for C5: the first visit to the wreckage from the fresh
session grants the Medkit and sets the flag. -/
theorem one_time_node_effects_witness :
    initGame.flags.wreckage_looted = false ∧
    go_to_node "wreckage" initGame =
      .ok ({ initGame with
             current_node_id := some "wreckage",
             player := { initGame.player with
                         inventory := dictSet initGame.player.inventory "Medkit"
                           (initGame.player.inventory "Medkit" + 1) },
             flags := { initGame.flags with wreckage_looted := true } },
           ["You gain +1 Medkit from the wreckage."]) :=
  ⟨rfl, (one_time_node_effects initGame).1 rfl⟩

end Crashlanding
